import Mathlib

/-!
Shallow embedding of the `your_app` mini-app template (a Frappe app
scaffold): the error envelope, the validation / permission / logging
helpers, the sample-doc service and document hook, the report function and
the integration connector.  External framework collaborators (the
permission oracle, the record store, the HTTP transport, the ambient
"currently handled exception" context of Python) appear as explicit
parameters of the embedded functions.
-/

set_option autoImplicit false

namespace YourApp

/-- Modelled from the spec: `utils/errors.py` is not present in the source
tree.  The spec fixes a catalogue of symbolic error codes
(PERMISSION_DENIED, VALIDATION_ERROR, APP_ERROR, INTEGRATION_ERROR). -/
inductive ErrorCodeKey
  | PERMISSION_DENIED
  | VALIDATION_ERROR
  | APP_ERROR
  | INTEGRATION_ERROR
deriving DecidableEq, Repr

/-- Modelled from the spec: `utils/errors.py` is not present in the source
tree; the spec makes ERROR_CODES a fixed mapping from each symbolic name to
its stable wire-visible string value (the symbolic names themselves are the
wire strings, per the external-interface section). -/
def ERROR_CODES : ErrorCodeKey → String
  | .PERMISSION_DENIED => "PERMISSION_DENIED"
  | .VALIDATION_ERROR => "VALIDATION_ERROR"
  | .APP_ERROR => "APP_ERROR"
  | .INTEGRATION_ERROR => "INTEGRATION_ERROR"

/-- Modelled from the spec: the result envelope from the missing
`utils/errors.py`, a tagged variant.  Success carries a message and an
optional data mapping; Failure carries a message, a data mapping and a
required error code. -/
inductive Envelope
  | success (message : String) (data : List (String × String))
  | failure (message : String) (data : List (String × String)) (code : String)
deriving DecidableEq, Repr

/-- Modelled from the spec: `ok(message, data?)` builds a Success envelope. -/
def ok (message : String) (data : List (String × String)) : Envelope :=
  .success message data

/-- Modelled from the spec: `error(message, data?, code)` builds a Failure
envelope with a required code. -/
def error (message : String) (data : List (String × String)) (code : String) : Envelope :=
  .failure message data code

/-- Discriminant of the envelope: Success variant. -/
def Envelope.isSuccess : Envelope → Bool
  | .success _ _ => true
  | .failure _ _ _ => false

/-- Discriminant of the envelope: Failure variant. -/
def Envelope.isFailure : Envelope → Bool
  | .success _ _ => false
  | .failure _ _ _ => true

/-- The Python exception classes that the API handler distinguishes in its
except clauses: `frappe.exceptions.PermissionError`, `frappe.ValidationError`
and any other `Exception`.  The payload is `str(exc)`. -/
inductive Exc
  | permissionError (msg : String)
  | validationError (msg : String)
  | other (msg : String)
deriving DecidableEq, Repr

/-- `str(exc)`: the message of the exception. -/
def Exc.msg : Exc → String
  | .permissionError m => m
  | .validationError m => m
  | .other m => m

/-- The exception class name, as it appears in a rendered traceback. -/
def Exc.className : Exc → String
  | .permissionError _ => "frappe.exceptions.PermissionError"
  | .validationError _ => "frappe.exceptions.ValidationError"
  | .other _ => "Exception"

/-- `frappe.throw(msg)` as called throughout this app: no explicit
exception class is ever passed, so the framework raises its default
`frappe.ValidationError` carrying `msg`. -/
def frappe_throw {α : Type} (msg : String) : Except Exc α :=
  .error (.validationError msg)

/-- Python falsiness of an optional string value: `None` and `""` are
falsy, every other string is truthy. -/
def falsy : Option String → Bool
  | none => true
  | some s => s.isEmpty

/-- Python truthiness of an optional string value. -/
def truthy (v : Option String) : Bool := !(falsy v)

/-- `require_permission(doctype, perm, docname=None)` from
`utils/permissions.py`: queries the framework permission oracle
(`frappe.has_permission`) and calls `frappe.throw` on the
PERMISSION_DENIED code string when denied.  The oracle is passed
explicitly as the ambient collaborator. -/
def require_permission (has_permission : String → String → Option String → Bool)
    (doctype perm : String) (docname : Option String) : Except Exc Unit :=
  if !(has_permission doctype perm docname) then
    frappe_throw (ERROR_CODES .PERMISSION_DENIED)
  else
    .ok ()

/-- `require_fields(payload, fields)` from `utils/validation.py`: collects
every field whose payload value is missing or falsy and, if any, throws one
message listing them all comma-joined, prefixed by the VALIDATION_ERROR
code.  The payload mapping is embedded as its `get` function. -/
def require_fields (payload : String → Option String) (fields : List String) :
    Except Exc Unit :=
  let missing := fields.filter (fun f => falsy (payload f))
  if !missing.isEmpty then
    frappe_throw (ERROR_CODES .VALIDATION_ERROR ++ ": missing fields: "
      ++ String.intercalate ", " missing)
  else
    .ok ()

/-- One persisted record created by `frappe.log_error(text, title)`. -/
structure ErrorLogEntry where
  text : String
  title : String
deriving DecidableEq, Repr

/-- The two logging sinks of `utils/logging.py`: the process logger and the
durable frappe error log. -/
structure LogState where
  processLog : List String
  errorLog : List ErrorLogEntry
deriving DecidableEq, Repr

/-- Python `traceback.format_exc()`: renders the exception currently being
handled in the caller's context (here an explicit `ambient` parameter);
when no exception is being handled it renders the placeholder
"NoneType: None\n".  The rendered text depends only on the ambient
exception, never on any argument of the caller. -/
def format_exc (ambient : Option Exc) : String :=
  match ambient with
  | some e => "Traceback (most recent call last):\n" ++ e.className ++ ": " ++ e.msg ++ "\n"
  | none => "NoneType: None\n"

/-- `log_error(title, message, exc=None, ...)` from `utils/logging.py`:
always appends to the process log and persists a durable error record.
When `exc` is provided the logged and persisted text is
`traceback.format_exc()` of the ambient handled exception; otherwise the
plain message is persisted. -/
def log_error (title message : String) (exc : Option Exc) (ambient : Option Exc)
    (logs : LogState) : LogState :=
  if exc.isSome then
    let tb := format_exc ambient
    ⟨logs.processLog ++ [title ++ " - " ++ message ++ "\n" ++ tb],
      logs.errorLog ++ [⟨tb, title⟩]⟩
  else
    ⟨logs.processLog ++ [title ++ " - " ++ message],
      logs.errorLog ++ [⟨message, title⟩]⟩

/-- A `Sample Doc` record: system-assigned name, title, status. -/
structure SampleDoc where
  name : String
  title : String
  status : String
deriving DecidableEq, Repr

/-- `SampleDoc.validate` from `doctype/sample_doc/sample_doc.py`: throws
"Title is required" when the title is falsy, then throws
"Title must be 255 characters or fewer" when the title is truthy and
longer than 255 characters. -/
def SampleDoc.validate (doc : SampleDoc) : Except Exc Unit :=
  if doc.title = "" then
    frappe_throw "Title is required"
  else if doc.title ≠ "" ∧ 255 < doc.title.length then
    frappe_throw "Title must be 255 characters or fewer"
  else
    .ok ()

/-- The record store owned by the framework: the persisted documents and
the framework's identity counter. -/
structure Store where
  docs : List SampleDoc
  nextId : Nat
deriving DecidableEq, Repr

/-- Identity assignment belongs to the framework (the spec: "persistence
and identity assignment belong entirely to the external framework"); the
model assigns a fresh deterministic name from the store counter. -/
def assignName (n : Nat) : String := "SD-" ++ toString n

/-- `doc.insert()` as invoked by the service: the persistence layer runs
the document's `validate` hook synchronously before the write and, only if
it passes, assigns an identifier and appends the record to the store. -/
def Store.insert (store : Store) (title status : String) :
    Except Exc (SampleDoc × Store) :=
  match SampleDoc.validate ⟨"", title, status⟩ with
  | .error e => .error e
  | .ok _ =>
    let doc : SampleDoc := ⟨assignName store.nextId, title, status⟩
    .ok (doc, ⟨store.docs ++ [doc], store.nextId + 1⟩)

/-- `create_sample_doc(title, status="Open")` from
`services/sample_service.py`: throws "Title is required" when the title is
falsy, otherwise constructs the document and persists it via
`doc.insert()`. -/
def create_sample_doc (store : Store) (title : Option String) (status : String) :
    Except Exc (SampleDoc × Store) :=
  if falsy title then
    frappe_throw "Title is required"
  else
    store.insert (title.getD "") status

/-- `hello(name=None)` from `api.py`: returns the interpolated greeting
when `name` is truthy and the bare greeting otherwise. -/
def hello (name : Option String) : String :=
  if truthy name then "Hello " ++ name.getD "" else "Hello"

/-- The observable outcome of one `create_sample` call: the returned
envelope, the record store afterwards, and the log sinks afterwards. -/
structure CreateSampleResult where
  envelope : Envelope
  store : Store
  logs : LogState
deriving DecidableEq, Repr

/-- The except clauses of `create_sample`, dispatched by exception class in
source order (PermissionError, then ValidationError, then Exception); each
logs with the caught exception ambient and returns the mapped Failure
envelope.  The store is unchanged on every failure path. -/
def handleCreateSampleExc (store : Store) (logs : LogState) : Exc → CreateSampleResult
  | .permissionError m =>
    ⟨error "Permission denied" [("detail", m)] (ERROR_CODES .PERMISSION_DENIED), store,
      log_error "Create Sample - permission denied" m (some (.permissionError m))
        (some (.permissionError m)) logs⟩
  | .validationError m =>
    ⟨error "Validation failed" [("detail", m)] (ERROR_CODES .VALIDATION_ERROR), store,
      log_error "Create Sample - validation" m (some (.validationError m))
        (some (.validationError m)) logs⟩
  | .other m =>
    ⟨error "Create Sample failed" [("detail", m)] (ERROR_CODES .APP_ERROR), store,
      log_error "Create Sample failed" m (some (.other m)) (some (.other m)) logs⟩

/-- `create_sample(title=None, status="Open")` from `api.py`: in strict
order runs the permission check for "create" on "Sample Doc", the
required-field check on the payload mapping with the single key "title",
then the service call; on success returns the Success envelope carrying the
new record's name, and every raised exception is converted by the except
clauses into exactly one Failure envelope. -/
def create_sample (has_permission : String → String → Option String → Bool)
    (store : Store) (logs : LogState) (title : Option String) (status : String) :
    CreateSampleResult :=
  match require_permission has_permission "Sample Doc" "create" none with
  | .error e => handleCreateSampleExc store logs e
  | .ok _ =>
    match require_fields (fun f => if f = "title" then title else none) ["title"] with
    | .error e => handleCreateSampleExc store logs e
    | .ok _ =>
      match create_sample_doc store title status with
      | .error e => handleCreateSampleExc store logs e
      | .ok (doc, store') => ⟨ok "Created" [("name", doc.name)], store', logs⟩

/-- One row of the `Sample Doc` table as the report's query sees it,
including the last-modified stamp used for ordering. -/
structure ReportRow where
  name : String
  title : String
  status : String
  modified : Nat
deriving DecidableEq, Repr

/-- The projection selected by the report query
(`select name, title, status`). -/
structure ReportDataRow where
  name : String
  title : String
  status : String
deriving DecidableEq, Repr

/-- Project a table row to the selected columns. -/
def ReportRow.toDataRow (r : ReportRow) : ReportDataRow := ⟨r.name, r.title, r.status⟩

/-- The report's filter mapping: optional keys status, title, page,
page_length. -/
structure ReportFilters where
  status : Option String
  title : Option String
  page : Option Int
  page_length : Option Int
deriving DecidableEq, Repr

/-- One column descriptor of the report schema. -/
structure Column where
  label : String
  fieldname : String
  fieldtype : String
  width : Nat
deriving DecidableEq, Repr

/-- One entry of the report summary. -/
structure SummaryItem where
  label : String
  value : Nat
  indicator : String
deriving DecidableEq, Repr

/-- The tuple returned by `execute`: columns, data rows, message, chart,
report summary. -/
structure ReportResult where
  columns : List Column
  data : List ReportDataRow
  message : Option String
  chart : Option String
  report_summary : List SummaryItem
deriving DecidableEq, Repr

/-- Python `x or d` for an optional integer: `None` and `0` are falsy and
yield the default. -/
def intOr (v : Option Int) (d : Int) : Int :=
  match v with
  | none => d
  | some n => if n = 0 then d else n

/-- The SQL `LIKE %pat%` clause built by the report: substring
containment. -/
def likeContains (s pat : String) : Bool := decide (pat.data <:+: s.data)

/-- The WHERE clauses of the report: an exact status match when the status
filter is truthy, and a substring title match when the title filter is
truthy. -/
def rowMatches (filters : ReportFilters) (r : ReportRow) : Bool :=
  (if truthy filters.status then decide (r.status = filters.status.getD "") else true)
  && (if truthy filters.title then likeContains r.title (filters.title.getD "") else true)

/-- Insert one row into a list already ordered by modified descending. -/
def insertByModifiedDesc (r : ReportRow) : List ReportRow → List ReportRow
  | [] => [r]
  | x :: xs => if r.modified ≤ x.modified then x :: insertByModifiedDesc r xs
               else r :: x :: xs

/-- The report's ORDER BY modified DESC, as a deterministic sort of the
filtered rows. -/
def sortByModifiedDesc : List ReportRow → List ReportRow
  | [] => []
  | r :: rs => insertByModifiedDesc r (sortByModifiedDesc rs)

/-- The fixed two-column schema of the report. -/
def reportColumns : List Column :=
  [⟨"Title", "title", "Data", 200⟩, ⟨"Status", "status", "Data", 100⟩]

/-- `execute(filters=None)` from `report/sample_report/sample_report.py`:
filters the table by the truthy filters, orders by modified descending,
computes `page_length = int(filters.get("page_length") or 20)` and
`page = int(filters.get("page") or 1)` with the floor fixups
(`page < 1 → 1`, `page_length < 1 → 20`), slices the rows with
`offset = (page - 1) * page_length` and `limit = page_length`, and counts
all matching rows with the same WHERE clauses but no slice for the
"Total Records" summary. -/
def execute (table : List ReportRow) (filters : ReportFilters) : ReportResult :=
  let filtered := sortByModifiedDesc (table.filter (rowMatches filters))
  let page_length0 := intOr filters.page_length 20
  let page0 := intOr filters.page 1
  let page := if page0 < 1 then 1 else page0
  let page_length := if page_length0 < 1 then 20 else page_length0
  let offset := (page - 1) * page_length
  let data := ((filtered.drop offset.toNat).take page_length.toNat).map ReportRow.toDataRow
  let total_count := (table.filter (rowMatches filters)).length
  ⟨reportColumns, data, none, none, [⟨"Total Records", total_count, "blue"⟩]⟩

/-- The transport outcome of the connector's single GET request: either a
`RequestException` at request time (timeout, connection failure, too many
redirects) or an HTTP response with its status code and parsed JSON body. -/
inductive HttpOutcome
  | transportError (msg : String)
  | response (status : Nat) (jsonBody : String)
deriving DecidableEq, Repr

/-- The observable outcome of one `fetch_status` call: the returned or
raised value, the log sinks afterwards, and whether a network request was
issued. -/
structure FetchResult where
  result : Except Exc String
  logs : LogState
  networkCalled : Bool
deriving Repr

/-- `requests.Response.raise_for_status()` raises `HTTPError` (a
`RequestException`) exactly for the 4xx and 5xx status codes. -/
def raise_for_status_fails (status : Nat) : Bool := decide (400 ≤ status)

/-- The message of the `HTTPError` raised by `raise_for_status`. -/
def httpErrorMessage (status : Nat) : String :=
  toString status ++ " Error for url"

/-- `fetch_status(external_id)` from `integrations/sample_connector.py`:
throws "external_id is required" before any network activity when the id is
falsy; otherwise issues the GET and, on any `RequestException` (transport
failure or `raise_for_status` on a 4xx/5xx status), logs the failure and
throws the INTEGRATION_ERROR-coded message; on success returns the parsed
JSON body. -/
def fetch_status (outcome : HttpOutcome) (external_id : String) (logs : LogState) :
    FetchResult :=
  if external_id.isEmpty then
    ⟨frappe_throw "external_id is required", logs, false⟩
  else
    match outcome with
    | .transportError m =>
      ⟨frappe_throw (ERROR_CODES .INTEGRATION_ERROR ++ ": failed to fetch external status"),
        log_error "Integration fetch failed" m (some (.other m)) (some (.other m)) logs,
        true⟩
    | .response status body =>
      if raise_for_status_fails status then
        ⟨frappe_throw (ERROR_CODES .INTEGRATION_ERROR ++ ": failed to fetch external status"),
          log_error "Integration fetch failed" (httpErrorMessage status)
            (some (.other (httpErrorMessage status)))
            (some (.other (httpErrorMessage status))) logs,
          true⟩
      else
        ⟨.ok body, logs, true⟩

/-- The claim's pagination rule for the page number: defaults to 1, and
every value below 1 is treated as 1. -/
def specPageOf (p : Option Int) : Int :=
  match p with
  | none => 1
  | some v => if v < 1 then 1 else v

/-- The claim's pagination rule applied to a filter mapping. -/
def specPage (filters : ReportFilters) : Int := specPageOf filters.page

/-- The claim's pagination rule for the page length: defaults to 20, with 0
(and, like the code, every value below 1) treated as 20. -/
def specPageLengthOf (l : Option Int) : Int :=
  match l with
  | none => 20
  | some v => if v < 1 then 20 else v

/-- The claim's page-length rule applied to a filter mapping. -/
def specPageLength (filters : ReportFilters) : Int := specPageLengthOf filters.page_length

/-- A concrete title of length 256, used to exercise the length bound. -/
def longTitle : String := String.mk (List.replicate 256 'a')

/-- A string is the empty string exactly when its length is zero. -/
theorem string_empty_iff_length_zero (s : String) : s = "" ↔ s.length = 0 := by
  constructor
  · intro h; subst h; rfl
  · intro h
    exact String.ext (List.length_eq_zero.mp h)

/-- A nonempty string has a false `isEmpty` flag. -/
theorem isEmpty_false_of_ne (s : String) (h : s ≠ "") : s.isEmpty = false := by
  cases hie : s.isEmpty
  · rfl
  · exact absurd ((String.isEmpty_iff s).mp hie) h

/-- An envelope is in its Success variant exactly when it is not in its
Failure variant: the two discriminants always disagree. -/
theorem envelope_discriminants (e : Envelope) :
    e.isSuccess = true ↔ e.isFailure = false := by
  cases e <;> simp [Envelope.isSuccess, Envelope.isFailure]

/-- The code's page fixup (default via `or 1`, then floor at 1) agrees with
the claim's page rule. -/
theorem page_fixup_eq (p : Option Int) :
    (if intOr p 1 < 1 then 1 else intOr p 1) = specPageOf p := by
  cases p with
  | none => simp [intOr, specPageOf]
  | some v =>
    by_cases hv : v = 0
    · subst hv; simp [intOr, specPageOf]
    · simp [intOr, specPageOf, hv]

/-- The code's page-length fixup (default via `or 20`, then below-1 back to
20) agrees with the claim's page-length rule. -/
theorem page_length_fixup_eq (l : Option Int) :
    (if intOr l 20 < 1 then 20 else intOr l 20) = specPageLengthOf l := by
  cases l with
  | none => simp [intOr, specPageLengthOf]
  | some v =>
    by_cases hv : v = 0
    · subst hv; simp [intOr, specPageLengthOf]
    · simp [intOr, specPageLengthOf, hv]

/-- Claim C1, code-bug exhibit: when the actor lacks the "create"
capability on Sample Doc, `require_permission` raises the `frappe.throw`
default exception class `frappe.ValidationError` (carrying the
PERMISSION_DENIED string as its message), not a PermissionError; the
handler therefore answers through its ValidationError branch, returning a
Failure envelope whose code field is VALIDATION_ERROR instead of the
claimed PERMISSION_DENIED. -/
theorem create_sample_denied_returns_validation_error_code :
    require_permission (fun _ _ _ => false) "Sample Doc" "create" none
      = Except.error (Exc.validationError "PERMISSION_DENIED")
    ∧ (create_sample (fun _ _ _ => false) ⟨[], 0⟩ ⟨[], []⟩ (some "Widget") "Open").envelope
      = Envelope.failure "Validation failed" [("detail", "PERMISSION_DENIED")]
          "VALIDATION_ERROR" := by
  exact ⟨rfl, rfl⟩

/-- Claim C9: `hello` treats every falsy name like an absent one —
`hello(None)` and `hello("")` both return exactly "Hello", and for every
non-empty name the result is "Hello " followed by the name. -/
theorem hello_falsy_name_handling (n : String) (h : n ≠ "") :
    hello none = "Hello" ∧ hello (some "") = "Hello"
    ∧ hello (some n) = "Hello " ++ n := by
  refine ⟨rfl, rfl, ?_⟩
  simp [hello, truthy, falsy, isEmpty_false_of_ne n h]

/-- Witness for claim C9 at the concrete name "World". -/
theorem hello_falsy_name_handling_witness :
    ("World" ≠ "")
    ∧ (hello none = "Hello" ∧ hello (some "") = "Hello"
      ∧ hello (some "World") = "Hello " ++ "World") :=
  ⟨by decide, hello_falsy_name_handling "World" (by decide)⟩

/-- Claim C10: with an `exc` argument, `log_error` persists
`traceback.format_exc()` of the ambient handled exception — outside any
active except block that is the placeholder trace, regardless of the
passed exception object — and the `exc` argument only selects the branch:
two different passed exceptions produce identical logging. -/
theorem log_error_trace_from_ambient_only (title msg : String) (e e' : Exc)
    (ambient : Option Exc) (logs : LogState) :
    (log_error title msg (some e) none logs).errorLog
      = logs.errorLog ++ [⟨"NoneType: None\n", title⟩]
    ∧ log_error title msg (some e) ambient logs
      = log_error title msg (some e') ambient logs := by
  exact ⟨rfl, rfl⟩

/-- Claim C2: `create_sample` always returns exactly one envelope variant
(its discriminants always disagree, and no exception escapes: every raised
exception is converted by an except clause); in particular, when the title
is None and the permission check passes, the result is a Failure envelope
with code VALIDATION_ERROR. -/
theorem create_sample_one_envelope_and_none_title_validation_error
    (has_permission : String → String → Option String → Bool)
    (store : Store) (logs : LogState) (title : Option String) (status : String)
    (hperm : has_permission "Sample Doc" "create" none = true) :
    ((create_sample has_permission store logs title status).envelope.isSuccess = true
      ↔ (create_sample has_permission store logs title status).envelope.isFailure = false)
    ∧ (create_sample has_permission store logs none status).envelope
      = Envelope.failure "Validation failed"
          [("detail", "VALIDATION_ERROR: missing fields: title")] "VALIDATION_ERROR" := by
  constructor
  · exact envelope_discriminants _
  · have h1 : require_permission has_permission "Sample Doc" "create" none
        = Except.ok () := by
      simp [require_permission, hperm]
    unfold create_sample
    rw [h1]
    rfl

/-- Witness for claim C2 with a granting permission oracle. -/
theorem create_sample_one_envelope_witness :
    ((fun (_ : String) (_ : String) (_ : Option String) => true)
        "Sample Doc" "create" none = true)
    ∧ (create_sample (fun _ _ _ => true) ⟨[], 0⟩ ⟨[], []⟩ none "Open").envelope
      = Envelope.failure "Validation failed"
          [("detail", "VALIDATION_ERROR: missing fields: title")] "VALIDATION_ERROR" :=
  ⟨rfl, (create_sample_one_envelope_and_none_title_validation_error
    (fun _ _ _ => true) ⟨[], 0⟩ ⟨[], []⟩ (some "x") "Open" rfl).2⟩

/-- Claim C3: when the permission check or the required-field check fails,
`create_sample` persists nothing — the store after the call is the store
before it (so `create_sample_doc` and `doc.insert` never ran), and the
returned envelope is a Failure. -/
theorem create_sample_no_persist_on_precheck_failure
    (has_permission : String → String → Option String → Bool)
    (store : Store) (logs : LogState) (title : Option String) (status : String)
    (h : has_permission "Sample Doc" "create" none = false ∨ falsy title = true) :
    (create_sample has_permission store logs title status).store = store
    ∧ (create_sample has_permission store logs title status).envelope.isFailure
      = true := by
  cases hb : has_permission "Sample Doc" "create" none with
  | false =>
    have h1 : require_permission has_permission "Sample Doc" "create" none
        = frappe_throw (ERROR_CODES .PERMISSION_DENIED) := by
      simp [require_permission, hb]
    unfold create_sample
    rw [h1]
    exact ⟨rfl, rfl⟩
  | true =>
    have hf : falsy title = true := by
      cases h with
      | inl hl => rw [hb] at hl; exact absurd hl (by simp)
      | inr hr => exact hr
    have h1 : require_permission has_permission "Sample Doc" "create" none
        = Except.ok () := by
      simp [require_permission, hb]
    have h2 : require_fields (fun f => if f = "title" then title else none) ["title"]
        = frappe_throw ("VALIDATION_ERROR: missing fields: title") := by
      simp [require_fields, hf, frappe_throw, ERROR_CODES]
      rfl
    unfold create_sample
    rw [h1, h2]
    exact ⟨rfl, rfl⟩

/-- Witness for claim C3 with a denying permission oracle. -/
theorem create_sample_no_persist_witness :
    ((fun (_ : String) (_ : String) (_ : Option String) => false)
        "Sample Doc" "create" none = false ∨ falsy (some "Widget") = true)
    ∧ ((create_sample (fun _ _ _ => false) ⟨[], 0⟩ ⟨[], []⟩ (some "Widget") "Open").store
        = ⟨[], 0⟩
      ∧ (create_sample (fun _ _ _ => false) ⟨[], 0⟩ ⟨[], []⟩
          (some "Widget") "Open").envelope.isFailure = true) :=
  ⟨Or.inl rfl, create_sample_no_persist_on_precheck_failure
    (fun _ _ _ => false) ⟨[], 0⟩ ⟨[], []⟩ (some "Widget") "Open" (Or.inl rfl)⟩

/-- Claim C4: `require_fields` collects every named field whose payload
value is absent or falsy; when none are missing it returns without
raising, and when some are missing it raises one ValidationError whose
message is the VALIDATION_ERROR code followed by all the missing names
comma-joined — every falsy field of the list appears in it, not just the
first. -/
theorem require_fields_enumerates_all_missing
    (payload : String → Option String) (fields : List String) :
    (fields.filter (fun f => falsy (payload f)) = [] →
      require_fields payload fields = Except.ok ())
    ∧ (fields.filter (fun f => falsy (payload f)) ≠ [] →
      require_fields payload fields
        = Except.error (Exc.validationError ("VALIDATION_ERROR: missing fields: "
            ++ String.intercalate ", " (fields.filter (fun f => falsy (payload f)))))
      ∧ ∀ f ∈ fields, falsy (payload f) = true
          → f ∈ fields.filter (fun f => falsy (payload f))) := by
  constructor
  · intro h
    simp [require_fields, h]
  · intro h
    constructor
    · simp [require_fields, frappe_throw, ERROR_CODES, h]
    · intro f hf hfa
      exact List.mem_filter.mpr ⟨hf, hfa⟩

/-- Witness for claim C4: a payload missing both of two fields produces a
message listing both, comma-joined. -/
theorem require_fields_enumerates_witness :
    (["a", "b"].filter (fun f => falsy ((fun _ => (none : Option String)) f)) ≠ [])
    ∧ require_fields (fun _ => (none : Option String)) ["a", "b"]
      = Except.error (Exc.validationError "VALIDATION_ERROR: missing fields: a, b") :=
  ⟨by decide,
    ((require_fields_enumerates_all_missing (fun _ => (none : Option String))
      ["a", "b"]).2 (by decide)).1⟩

/-- Claim C5: the document validation hook passes exactly the titles of
length 1 to 255 (so it raises if and only if the title is empty or longer
than 255 characters), and every title longer than 255 characters is
rejected both by the hook itself and by record creation through the
service (`create_sample_doc`, whose `doc.insert` runs the hook). -/
theorem sample_doc_title_bounds (name title status : String) (store : Store) :
    (SampleDoc.validate ⟨name, title, status⟩ = Except.ok ()
      ↔ 1 ≤ title.length ∧ title.length ≤ 255)
    ∧ (255 < title.length →
      SampleDoc.validate ⟨name, title, status⟩
        = Except.error (Exc.validationError "Title must be 255 characters or fewer")
      ∧ create_sample_doc store (some title) status
        = Except.error (Exc.validationError "Title must be 255 characters or fewer")) := by
  have hlen := string_empty_iff_length_zero title
  constructor
  · by_cases h0 : title = ""
    · subst h0
      have hv0 : SampleDoc.validate ⟨name, "", status⟩
          = Except.error (Exc.validationError "Title is required") := rfl
      rw [hv0]
      simp
    · by_cases h1 : 255 < title.length
      · simp [SampleDoc.validate, h0, h1, frappe_throw]
      · simp [SampleDoc.validate, h0, h1, frappe_throw]
        have : title.length ≠ 0 := fun hz => h0 (hlen.mpr hz)
        omega
  · intro h1
    have h0 : title ≠ "" := by
      intro he
      rw [he] at h1
      exact absurd h1 (by decide)
    have hv : SampleDoc.validate ⟨name, title, status⟩
        = Except.error (Exc.validationError "Title must be 255 characters or fewer") := by
      simp [SampleDoc.validate, h0, h1, frappe_throw]
    have hv2 : SampleDoc.validate ⟨"", title, status⟩
        = Except.error (Exc.validationError "Title must be 255 characters or fewer") := by
      simp [SampleDoc.validate, h0, h1, frappe_throw]
    refine ⟨hv, ?_⟩
    have hf : falsy (some title) = false := by
      simp [falsy, isEmpty_false_of_ne title h0]
    simp [create_sample_doc, hf, Store.insert, hv2]

set_option maxRecDepth 4000 in
/-- Witness for claim C5 at a concrete 256-character title. -/
theorem sample_doc_title_bounds_witness :
    (255 < longTitle.length)
    ∧ (SampleDoc.validate ⟨"", longTitle, "Open"⟩
        = Except.error (Exc.validationError "Title must be 255 characters or fewer")
      ∧ create_sample_doc ⟨[], 0⟩ (some longTitle) "Open"
        = Except.error (Exc.validationError "Title must be 255 characters or fewer")) :=
  ⟨by decide, (sample_doc_title_bounds "" longTitle "Open" ⟨[], 0⟩).2 (by decide)⟩

/-- Claim C6: the report slices the filtered, modified-descending-ordered
rows with offset (page - 1) * page_length and limit page_length, where the
page defaults to 1 with every value below 1 treated as 1 and the page
length defaults to 20 with 0 (like every value below 1) treated as 20;
hence page 2 with page length 5 yields rows 6 to 10 of the filtered set,
page 0 behaves as page 1, and page length 0 as page length 20. -/
theorem report_pagination_offset_limit (table : List ReportRow)
    (filters : ReportFilters) :
    (execute table filters).data
      = (((sortByModifiedDesc (table.filter (rowMatches filters))).drop
            (((specPage filters - 1) * specPageLength filters).toNat)).take
          (specPageLength filters).toNat).map ReportRow.toDataRow
    ∧ (execute table ⟨filters.status, filters.title, some 2, some 5⟩).data
      = (((sortByModifiedDesc (table.filter (rowMatches filters))).drop 5).take 5).map
          ReportRow.toDataRow
    ∧ execute table ⟨filters.status, filters.title, some 0, filters.page_length⟩
      = execute table ⟨filters.status, filters.title, some 1, filters.page_length⟩
    ∧ execute table ⟨filters.status, filters.title, filters.page, some 0⟩
      = execute table ⟨filters.status, filters.title, filters.page, some 20⟩ := by
  obtain ⟨s, t, p, l⟩ := filters
  refine ⟨?_, rfl, rfl, rfl⟩
  simp [execute, specPage, specPageLength, page_fixup_eq, page_length_fixup_eq]

/-- Claim C7: the report's "Total Records" summary value is the count of
all rows matching the status and title filters — the same clauses as the
row query with no limit or offset — and is therefore independent of the
page and page_length values. -/
theorem report_summary_counts_all_matching (table : List ReportRow)
    (filters : ReportFilters) (p1 p2 l1 l2 : Option Int) :
    (execute table filters).report_summary
      = [⟨"Total Records", (table.filter (rowMatches filters)).length, "blue"⟩]
    ∧ (execute table ⟨filters.status, filters.title, p1, l1⟩).report_summary
      = (execute table ⟨filters.status, filters.title, p2, l2⟩).report_summary := by
  obtain ⟨s, t, p, l⟩ := filters
  exact ⟨rfl, rfl⟩

/-- Claim C8: `fetch_status` with an empty id fails before any network
activity; with a non-empty id, a transport-level failure or a 4xx/5xx
status (the statuses `raise_for_status` treats as non-success) is logged
and mapped to the INTEGRATION_ERROR-coded failure, and a successful
response returns the parsed JSON body unchanged. -/
theorem fetch_status_error_mapping (outcome : HttpOutcome)
    (id m body : String) (status : Nat) (logs : LogState) (h : id ≠ "") :
    (fetch_status outcome "" logs).networkCalled = false
    ∧ (fetch_status outcome "" logs).result
      = Except.error (Exc.validationError "external_id is required")
    ∧ (fetch_status (.transportError m) id logs).result
      = Except.error (Exc.validationError
          "INTEGRATION_ERROR: failed to fetch external status")
    ∧ (fetch_status (.transportError m) id logs).logs.errorLog
      = logs.errorLog
        ++ [⟨format_exc (some (.other m)), "Integration fetch failed"⟩]
    ∧ (400 ≤ status →
      (fetch_status (.response status body) id logs).result
        = Except.error (Exc.validationError
            "INTEGRATION_ERROR: failed to fetch external status")
      ∧ (fetch_status (.response status body) id logs).logs.errorLog
        = logs.errorLog
          ++ [⟨format_exc (some (.other (httpErrorMessage status))),
              "Integration fetch failed"⟩])
    ∧ (status < 400 →
      (fetch_status (.response status body) id logs).result = Except.ok body
      ∧ (fetch_status (.response status body) id logs).logs = logs) := by
  have hfe : id.isEmpty = false := isEmpty_false_of_ne id h
  refine ⟨rfl, rfl, ?_, ?_, ?_, ?_⟩
  · simp [fetch_status, hfe, frappe_throw, ERROR_CODES]
  · simp [fetch_status, hfe, log_error]
  · intro hs
    have hrs : raise_for_status_fails status = true := by
      simp [raise_for_status_fails, hs]
    constructor
    · simp [fetch_status, hfe, hrs, frappe_throw, ERROR_CODES]
    · simp [fetch_status, hfe, hrs, log_error]
  · intro hs
    have hrs : raise_for_status_fails status = false := by
      simp [raise_for_status_fails]
      omega
    constructor
    · simp [fetch_status, hfe, hrs]
    · simp [fetch_status, hfe, hrs]

/-- Witness for claim C8 at the concrete id "x" and a transport failure. -/
theorem fetch_status_error_mapping_witness :
    ("x" ≠ "")
    ∧ (fetch_status (.transportError "timed out") "x" ⟨[], []⟩).result
      = Except.error (Exc.validationError
          "INTEGRATION_ERROR: failed to fetch external status") :=
  ⟨by decide, (fetch_status_error_mapping (.transportError "timed out")
    "x" "timed out" "{}" 503 ⟨[], []⟩ (by decide)).2.2.1⟩

end YourApp
